import Mathlib

set_option maxHeartbeats 1000000

namespace LLMJudge

/-- Python values as produced by `json.loads` in the reference implementation
(src/llm_judge.py).  JSON numbers without a fraction or exponent become Python
ints; numbers with a fraction or exponent become floats, modelled here as exact
rationals (the IEEE-754 rounding Python applies to decimal literals is not
modelled; no claim depends on it).  Python's non-standard `NaN`/`Infinity`
constants are outside the modelled input space. -/
inductive PyVal where
  | null
  | bool (b : Bool)
  | int (n : Int)
  | float (q : ℚ)
  | str (s : String)
  | list (xs : List PyVal)
  | dict (kvs : List (String × PyVal))

/-- The Python type name of a value, as it appears in runtime error messages. -/
def PyVal.typeName : PyVal → String
  | .null => "NoneType"
  | .bool _ => "bool"
  | .int _ => "int"
  | .float _ => "float"
  | .str _ => "str"
  | .list _ => "list"
  | .dict _ => "dict"

/-- JSON whitespace characters accepted between tokens by `json.loads`. -/
def isJsonWs (c : Char) : Bool := c = ' ' || c = '\t' || c = '\n' || c = '\r'

/-- Drop leading JSON whitespace. -/
def skipWs : List Char → List Char
  | [] => []
  | c :: cs => if isJsonWs c then skipWs cs else c :: cs

def isDigitC (c : Char) : Bool := '0' ≤ c && c ≤ '9'

/-- Split off a maximal run of decimal digits. -/
def spanDigits : List Char → List Char × List Char
  | [] => ([], [])
  | c :: cs =>
    if isDigitC c then
      let (d, r) := spanDigits cs
      (c :: d, r)
    else ([], c :: cs)

def digitsToNat (ds : List Char) : Nat :=
  ds.foldl (fun acc c => acc * 10 + (c.toNat - '0'.toNat)) 0

def hexVal? (c : Char) : Option Nat :=
  if '0' ≤ c ∧ c ≤ '9' then some (c.toNat - '0'.toNat)
  else if 'a' ≤ c ∧ c ≤ 'f' then some (c.toNat - 'a'.toNat + 10)
  else if 'A' ≤ c ∧ c ≤ 'F' then some (c.toNat - 'A'.toNat + 10)
  else Option.none

def hex4 (a b c d : Char) : Option Nat :=
  match hexVal? a, hexVal? b, hexVal? c, hexVal? d with
  | some x, some y, some z, some w => some (((x * 16 + y) * 16 + z) * 16 + w)
  | _, _, _, _ => Option.none

/-- JSON number token, following the grammar `json.loads` uses:
an optional minus, an integer part without leading zeros, an optional
fraction, an optional exponent.  As in Python, the match is maximal but a
bare `.` or `e` not followed by a digit is left unconsumed. -/
def parseNum (cs : List Char) : Option (PyVal × List Char) :=
  let (neg, cs1) : Bool × List Char :=
    match cs with
    | '-' :: r => (true, r)
    | _ => (false, cs)
  match cs1 with
  | [] => Option.none
  | c0 :: _ =>
    if !isDigitC c0 then Option.none
    else
      let (ip, r1) : List Char × List Char :=
        match cs1 with
        | '0' :: r => (['0'], r)
        | _ => spanDigits cs1
      let (fp, r2) : List Char × List Char :=
        match r1 with
        | '.' :: d :: r =>
          if isDigitC d then spanDigits (d :: r) else ([], r1)
        | _ => ([], r1)
      let (eneg, ed, r3) : Bool × List Char × List Char :=
        match r2 with
        | e :: rest =>
          if e = 'e' || e = 'E' then
            match rest with
            | '+' :: d :: rr =>
              if isDigitC d then
                let (ds, r4) := spanDigits (d :: rr); (false, ds, r4)
              else (false, [], r2)
            | '-' :: d :: rr =>
              if isDigitC d then
                let (ds, r4) := spanDigits (d :: rr); (true, ds, r4)
              else (false, [], r2)
            | d :: rr =>
              if isDigitC d then
                let (ds, r4) := spanDigits (d :: rr); (false, ds, r4)
              else (false, [], r2)
            | [] => (false, [], r2)
          else (false, [], r2)
        | [] => (false, [], r2)
      if fp.isEmpty && ed.isEmpty then
        let n : Int := Int.ofNat (digitsToNat ip)
        some (.int (if neg then -n else n), r1)
      else
        let mant : ℚ := (digitsToNat (ip ++ fp) : ℚ) / ((10 : ℚ) ^ fp.length)
        let ex : Int := if eneg then -(Int.ofNat (digitsToNat ed)) else Int.ofNat (digitsToNat ed)
        let mag : ℚ := mant * (10 : ℚ) ^ ex
        some (.float (if neg then -mag else mag), r3)

/-- JSON string body (opening quote already consumed), strict mode: raw
control characters are rejected, the standard escapes and `\uXXXX` (with
surrogate-pair combination) are decoded.  `acc` holds decoded characters in
reverse. -/
def parseStr : Nat → List Char → List Char → Option (String × List Char)
  | 0, _, _ => Option.none
  | fuel + 1, cs, acc =>
    match cs with
    | [] => Option.none
    | '"' :: r => some (String.mk acc.reverse, r)
    | '\\' :: e :: r =>
      if e = '"' then parseStr fuel r ('"' :: acc)
      else if e = '\\' then parseStr fuel r ('\\' :: acc)
      else if e = '/' then parseStr fuel r ('/' :: acc)
      else if e = 'b' then parseStr fuel r (Char.ofNat 8 :: acc)
      else if e = 'f' then parseStr fuel r (Char.ofNat 12 :: acc)
      else if e = 'n' then parseStr fuel r ('\n' :: acc)
      else if e = 'r' then parseStr fuel r ('\r' :: acc)
      else if e = 't' then parseStr fuel r ('\t' :: acc)
      else if e = 'u' then
        match r with
        | h1 :: h2 :: h3 :: h4 :: r2 =>
          match hex4 h1 h2 h3 h4 with
          | Option.none => Option.none
          | some code =>
            if 0xD800 ≤ code ∧ code ≤ 0xDBFF then
              match r2 with
              | '\\' :: 'u' :: g1 :: g2 :: g3 :: g4 :: r3 =>
                match hex4 g1 g2 g3 g4 with
                | some code2 =>
                  if 0xDC00 ≤ code2 ∧ code2 ≤ 0xDFFF then
                    parseStr fuel r3
                      (Char.ofNat (0x10000 + (code - 0xD800) * 0x400 + (code2 - 0xDC00)) :: acc)
                  else parseStr fuel r2 (Char.ofNat code :: acc)
                | Option.none => parseStr fuel r2 (Char.ofNat code :: acc)
              | _ => parseStr fuel r2 (Char.ofNat code :: acc)
            else parseStr fuel r2 (Char.ofNat code :: acc)
        | _ => Option.none
      else Option.none
    | c :: r => if c.toNat < 0x20 then Option.none else parseStr fuel r (c :: acc)

mutual

/-- One JSON value, positioned at its first character. -/
def parseVal : Nat → List Char → Option (PyVal × List Char)
  | 0, _ => Option.none
  | fuel + 1, cs =>
    match cs with
    | [] => Option.none
    | '{' :: r =>
      match skipWs r with
      | '}' :: r2 => some (.dict [], r2)
      | r2 => parseMembers fuel r2 []
    | '[' :: r =>
      match skipWs r with
      | ']' :: r2 => some (.list [], r2)
      | r2 => parseElems fuel r2 []
    | '"' :: r =>
      match parseStr (r.length + 1) r [] with
      | some (s, r2) => some (.str s, r2)
      | Option.none => Option.none
    | 'n' :: 'u' :: 'l' :: 'l' :: r => some (.null, r)
    | 't' :: 'r' :: 'u' :: 'e' :: r => some (.bool true, r)
    | 'f' :: 'a' :: 'l' :: 's' :: 'e' :: r => some (.bool false, r)
    | _ => parseNum cs

/-- Members of a JSON object, positioned at the opening quote of a key.
Duplicate keys are kept in order; lookup takes the last occurrence, matching
Python's dict-overwrite semantics. -/
def parseMembers : Nat → List Char → List (String × PyVal) → Option (PyVal × List Char)
  | 0, _, _ => Option.none
  | fuel + 1, cs, acc =>
    match cs with
    | '"' :: r =>
      match parseStr (r.length + 1) r [] with
      | some (k, r1) =>
        match skipWs r1 with
        | ':' :: r2 =>
          match parseVal fuel (skipWs r2) with
          | some (v, r3) =>
            match skipWs r3 with
            | ',' :: r4 => parseMembers fuel (skipWs r4) (acc ++ [(k, v)])
            | '}' :: r4 => some (.dict (acc ++ [(k, v)]), r4)
            | _ => Option.none
          | Option.none => Option.none
        | _ => Option.none
      | Option.none => Option.none
    | _ => Option.none

/-- Elements of a JSON array, positioned at the first character of a value. -/
def parseElems : Nat → List Char → List PyVal → Option (PyVal × List Char)
  | 0, _, _ => Option.none
  | fuel + 1, cs, acc =>
    match parseVal fuel cs with
    | some (v, r) =>
      match skipWs r with
      | ',' :: r2 => parseElems fuel (skipWs r2) (acc ++ [v])
      | ']' :: r2 => some (.list (acc ++ [v]), r2)
      | _ => Option.none
    | Option.none => Option.none

end

/-- `json.loads`: skip leading whitespace, parse one JSON value, require
only whitespace to follow; `Option.none` plays JSONDecodeError.  The fuel
`2 * length + 2` dominates the recursion depth, which spends at most two
units per consumed character. -/
def json_loads (s : String) : Option PyVal :=
  let cs := skipWs s.data
  match parseVal (2 * cs.length + 2) cs with
  | some (v, rest) => if (skipWs rest).isEmpty then some v else Option.none
  | Option.none => Option.none

/-- Key lookup in a Python dict modelled as an ordered association list:
the last binding for a key wins, matching dict-overwrite on duplicate keys. -/
def lookupLast (kvs : List (String × PyVal)) (k : String) : Option PyVal :=
  match kvs with
  | [] => Option.none
  | (k', v) :: rest =>
    match lookupLast rest k with
    | some w => some w
    | Option.none => if k' = k then some v else Option.none

/-- Field access on a result value: `some` when the value is a dict that has
the key, `Option.none` otherwise.  Used to state what the returned verdicts
contain. -/
def getField (v : PyVal) (k : String) : Option PyVal :=
  match v with
  | .dict kvs => lookupLast kvs k
  | _ => Option.none

/-- Python's `value.get(key, dflt)`: succeeds only on dicts; on any other
value it raises AttributeError, modelled as the error string Python produces. -/
def dictGet (v : PyVal) (k : String) (dflt : PyVal) : Except String PyVal :=
  match v with
  | .dict kvs => .ok ((lookupLast kvs k).getD dflt)
  | other => .error ("'" ++ other.typeName ++ "' object has no attribute 'get'")

/-- Numeric view of a Python value for `>=` against an int: ints and floats
compare by value and bools coerce to 0/1 (bool subclasses int in Python);
everything else is non-numeric. -/
def toNum : PyVal → Option ℚ
  | .bool b => some (if b then 1 else 0)
  | .int n => some (n : ℚ)
  | .float q => some q
  | _ => Option.none

/-- Python's `score >= passing_score` (src/llm_judge.py line 233/234): a
bool for numeric scores, a TypeError — modelled as the error string Python
produces — otherwise. -/
def scoreGE (score : PyVal) (ps : Int) : Except String PyVal :=
  match toNum score with
  | some q => .ok (.bool (decide ((ps : ℚ) ≤ q)))
  | Option.none =>
    .error ("'>=' not supported between instances of '" ++ score.typeName ++ "' and 'int'")

/-- Python truthiness of the values `json.loads` can produce. -/
def pyTruthy : PyVal → Bool
  | .null => false
  | .bool b => b
  | .int n => decide (n ≠ 0)
  | .float q => decide (q ≠ 0)
  | .str s => !s.isEmpty
  | .list xs => !xs.isEmpty
  | .dict kvs => !kvs.isEmpty

/-- Python's `x and y`: returns `y` when `x` is truthy, otherwise `x` itself
(which need not be a bool). -/
def pyAnd (x y : PyVal) : PyVal := if pyTruthy x then y else x

/-- The dict `judge` returns from its `except` clause
(src/llm_judge.py lines 245-250). -/
def errorVerdict (e : String) : PyVal :=
  .dict [("error", .str e), ("passed", .bool false), ("score", .int 0)]

/-- The basic fallback structure `_extract_json_from_text` returns when no
JSON object can be recovered (src/llm_judge.py lines 264-270). -/
def defaultJudgment (text : String) : PyVal :=
  .dict [("score", .int 0), ("passed", .bool false),
         ("feedback", .str "Failed to parse judge response"),
         ("raw_text", .str text)]

/-- The brace-substring extraction attempt inside `_extract_json_from_text`
(src/llm_judge.py lines 254-262): take the substring from the first `\x7b` to
the last `\x7d` inclusive and try `json.loads` on it; `Option.none` when either
brace is missing, the bounds cross, or the substring fails to parse. -/
def extract_attempt (text : String) : Option PyVal :=
  let cs := text.data
  match List.findIdx? (fun c => c = '{') cs, List.findIdx? (fun c => c = '}') cs.reverse with
  | some s, some rj =>
    let e := cs.length - rj
    if s < e then json_loads (String.mk ((cs.drop s).take (e - s))) else Option.none
  | _, _ => Option.none

/-- `_extract_json_from_text` (src/llm_judge.py lines 252-270). -/
def extract_json_from_text (text : String) : PyVal :=
  match extract_attempt text with
  | some v => v
  | Option.none => defaultJudgment text

/-- The two-stage parse in `judge` (src/llm_judge.py lines 224-229):
strict `json.loads` on the whole text, falling back to
`_extract_json_from_text` on JSONDecodeError. -/
def parse_judgment (raw : String) : PyVal :=
  match json_loads raw with
  | some j => j
  | Option.none => extract_json_from_text raw

/-- The `JudgeType` enum (src/llm_judge.py lines 16-22). -/
inductive JudgeType
  | quality
  | correctness
  | appropriateness
  | comprehensiveness
  | custom
deriving DecidableEq

/-- `.value` of the enum members. -/
def JudgeType.value : JudgeType → String
  | .quality => "quality"
  | .correctness => "correctness"
  | .appropriateness => "appropriateness"
  | .comprehensiveness => "comprehensiveness"
  | .custom => "custom"

/-- Stand-in for the five rubric prompt templates of `_get_judge_prompt`
(src/llm_judge.py lines 59-164).  The full rubric wording is configuration
data no claim observes; what matters for the claims is only which inputs are
interpolated and that the result is some string.  The template for `custom`
additionally interpolates the criteria. -/
def promptTemplate : JudgeType → String → String → String → String
  | .quality, p, r, _ =>
    "You are an expert judge evaluating the quality of an LLM response. Prompt: "
      ++ p ++ " Response: " ++ r
  | .correctness, p, r, _ =>
    "You are an expert judge evaluating the correctness of an LLM response. Prompt: "
      ++ p ++ " Response: " ++ r
  | .appropriateness, p, r, _ =>
    "You are an expert judge evaluating the appropriateness of an LLM response. Prompt: "
      ++ p ++ " Response: " ++ r
  | .comprehensiveness, p, r, _ =>
    "You are an expert judge evaluating the comprehensiveness of an LLM response. Prompt: "
      ++ p ++ " Response: " ++ r
  | .custom, p, r, c =>
    "You are an expert judge evaluating an LLM response. Prompt: "
      ++ p ++ " Response: " ++ r ++ " Criteria: " ++ c

/-- `_get_judge_prompt` (src/llm_judge.py lines 52-180): for CUSTOM a falsy
criteria (absent or the empty string, matching `if not criteria`) raises
ValueError with the message below; every other case formats its template. -/
def get_judge_prompt (original_prompt response : String) (judge_type : JudgeType)
    (criteria : Option String) : Except String String :=
  match judge_type with
  | .custom =>
    match criteria with
    | Option.none => .error "Custom judge type requires criteria to be provided"
    | some c =>
      if c.isEmpty then .error "Custom judge type requires criteria to be provided"
      else .ok (promptTemplate .custom original_prompt response c)
  | other => .ok (promptTemplate other original_prompt response "")

/-- Score extraction, threshold comparison, reconciliation and result-dict
construction in `judge` (src/llm_judge.py lines 231-243), with each Python
step that can raise returning through `Except`; an `.error` anywhere lands in
the enclosing handler, i.e. `errorVerdict`.  Note the default argument of
`judgment.get("passed", score >= passing_score)` is evaluated eagerly in
Python, so the comparison runs (and can raise TypeError) even when the
`passed` key is present. -/
def reconcile (judgment : PyVal) (raw : String) (jt : JudgeType) (ps : Int) : PyVal :=
  match dictGet judgment "score" (.int 0) with
  | .error e => errorVerdict e
  | .ok score =>
    match scoreGE score ps with
    | .error e => errorVerdict e
    | .ok cmp =>
      match dictGet judgment "passed" cmp with
      | .error e => errorVerdict e
      | .ok judgment_passed =>
        let final_passed := pyAnd judgment_passed cmp
        match dictGet judgment "feedback" (.str "") with
        | .error e => errorVerdict e
        | .ok fb =>
          .dict [("judgment", judgment), ("raw_response", .str raw),
                 ("passed", final_passed), ("score", score),
                 ("judge_type", .str jt.value), ("feedback", fb)]

/-- `judge` (src/llm_judge.py lines 182-250).  The one external call —
`self.client.chat.completions.create(...).choices[0].message.content` — is
injected as `m`: `.ok raw` when the judge model returned `raw`, `.error e`
when the call raised with description `e`.  The prompt is built before the
call, so a ValueError from `_get_judge_prompt` reaches the handler without
the model being invoked. -/
def judge (m : Except String String) (original_prompt response : String)
    (judge_type : JudgeType) (criteria : Option String) (passing_score : Int) : PyVal :=
  match get_judge_prompt original_prompt response judge_type criteria with
  | .error e => errorVerdict e
  | .ok _ =>
    match m with
    | .error e => errorVerdict e
    | .ok raw_judgment => reconcile (parse_judgment raw_judgment) raw_judgment judge_type passing_score

/-- The accumulation loop of `judge_multiple` (src/llm_judge.py lines
291-301): `results = []`, append one `judge` result per response, in order.
`model` gives the injected outcome of the external call made while judging
each response. -/
def judge_multiple_loop (model : String → Except String String) (original_prompt : String)
    (jt : JudgeType) (criteria : Option String) (ps : Int) :
    List String → List PyVal → List PyVal
  | [], results => results
  | r :: rest, results =>
    judge_multiple_loop model original_prompt jt criteria ps rest
      (results ++ [judge (model r) original_prompt r jt criteria ps])

/-- `judge_multiple` (src/llm_judge.py lines 272-301). -/
def judge_multiple (model : String → Except String String) (original_prompt : String)
    (responses : List String) (jt : JudgeType) (criteria : Option String) (ps : Int) :
    List PyVal :=
  judge_multiple_loop model original_prompt jt criteria ps responses []

/-- Python's JSONDecodeError description carries position information; it is
abstracted here to a fixed description, since no claim inspects the message
text, only the presence of the error field. -/
def jsonDecodeErrorMsg : String := "Expecting value in judge model output"

/-- `compare_responses` (src/llm_judge.py lines 303-378).  The comparison
prompt is built by f-string interpolation (lines 320-350), which cannot
raise, and the external call is injected as `m` exactly as in `judge`.  The
raw comparison text is parsed with `json.loads` alone (line 364) — a
JSONDecodeError, like every other failure, lands in the handler returning
the error/winner-None dict (lines 374-378). -/
def compare_responses (m : Except String String)
    (original_prompt response1 response2 : String)
    (comparison_criteria : Option String) : PyVal :=
  match m with
  | .error e => .dict [("error", .str e), ("winner", PyVal.null)]
  | .ok raw_comparison =>
    match json_loads raw_comparison with
    | Option.none => .dict [("error", .str jsonDecodeErrorMsg), ("winner", PyVal.null)]
    | some comparison =>
      match dictGet comparison "winner" PyVal.null,
            dictGet comparison "response1_score" (.int 0),
            dictGet comparison "response2_score" (.int 0) with
      | .ok w, .ok s1, .ok s2 =>
        .dict [("comparison", comparison), ("raw_response", .str raw_comparison),
               ("winner", w), ("response1_score", s1), ("response2_score", s2)]
      | .error e, _, _ => .dict [("error", .str e), ("winner", PyVal.null)]
      | _, .error e, _ => .dict [("error", .str e), ("winner", PyVal.null)]
      | _, _, .error e => .dict [("error", .str e), ("winner", PyVal.null)]

/-- Modelled from the spec, for claim C6 only: what `compare_responses`
would be if it parsed the judge output "with the same strict-then-fallback
JSON strategy" as single judgments, i.e. with `parse_judgment` in place of
the bare `json.loads`.  Compared against the source-derived
`compare_responses` to settle the claim. -/
def compare_responses_claimed (m : Except String String)
    (original_prompt response1 response2 : String)
    (comparison_criteria : Option String) : PyVal :=
  match m with
  | .error e => .dict [("error", .str e), ("winner", PyVal.null)]
  | .ok raw_comparison =>
    match dictGet (parse_judgment raw_comparison) "winner" PyVal.null,
          dictGet (parse_judgment raw_comparison) "response1_score" (.int 0),
          dictGet (parse_judgment raw_comparison) "response2_score" (.int 0) with
    | .ok w, .ok s1, .ok s2 =>
      .dict [("comparison", parse_judgment raw_comparison),
             ("raw_response", .str raw_comparison),
             ("winner", w), ("response1_score", s1), ("response2_score", s2)]
    | .error e, _, _ => .dict [("error", .str e), ("winner", PyVal.null)]
    | _, .error e, _ => .dict [("error", .str e), ("winner", PyVal.null)]
    | _, _, .error e => .dict [("error", .str e), ("winner", PyVal.null)]

/-! ### Helper lemmas -/

theorem getField_errorVerdict_passed (e : String) :
    getField (errorVerdict e) "passed" = some (PyVal.bool false) := rfl

theorem getField_errorVerdict_score (e : String) :
    getField (errorVerdict e) "score" = some (PyVal.int 0) := rfl

theorem getField_result_passed (judgment sc fp fb : PyVal) (raw jv : String) :
    getField (PyVal.dict [("judgment", judgment), ("raw_response", PyVal.str raw),
      ("passed", fp), ("score", sc), ("judge_type", PyVal.str jv), ("feedback", fb)])
      "passed" = some fp := rfl

theorem getField_result_score (judgment sc fp fb : PyVal) (raw jv : String) :
    getField (PyVal.dict [("judgment", judgment), ("raw_response", PyVal.str raw),
      ("passed", fp), ("score", sc), ("judge_type", PyVal.str jv), ("feedback", fb)])
      "score" = some sc := rfl

/-! ### Claim theorems -/

/-- Claim C2: `judge` attempts a strict JSON parse of the whole raw text and,
on failure, parses the substring from the first opening brace to the last
closing brace; the prose-wrapped example text fails the strict parse, its
brace substring parses to score 90 / passed true, and with passing score 70
the final verdict passes with score 90. -/
theorem judge_strict_then_fallback :
    (∀ raw : String, parse_judgment raw =
      match json_loads raw with
      | some j => j
      | Option.none => extract_json_from_text raw) ∧
    json_loads "Here is my answer: \x7b\"score\": 90, \"passed\": true\x7d Thanks!"
      = Option.none ∧
    extract_attempt "Here is my answer: \x7b\"score\": 90, \"passed\": true\x7d Thanks!"
      = some (PyVal.dict [("score", PyVal.int 90), ("passed", PyVal.bool true)]) ∧
    parse_judgment "Here is my answer: \x7b\"score\": 90, \"passed\": true\x7d Thanks!"
      = PyVal.dict [("score", PyVal.int 90), ("passed", PyVal.bool true)] ∧
    getField (judge
      (Except.ok "Here is my answer: \x7b\"score\": 90, \"passed\": true\x7d Thanks!")
      "p" "r" JudgeType.quality Option.none 70) "passed" = some (PyVal.bool true) ∧
    getField (judge
      (Except.ok "Here is my answer: \x7b\"score\": 90, \"passed\": true\x7d Thanks!")
      "p" "r" JudgeType.quality Option.none 70) "score" = some (PyVal.int 90) :=
  ⟨fun _ => rfl, rfl, rfl, rfl, rfl, rfl⟩

/-- Claim C3 counterexample: the text `42` contains no brace at all, yet the
strict parse succeeds (as the JSON number 42), so the two-stage parsing does
not return the default structure for it; the verdict `judge` then produces
for it has no feedback field at all (the `.get` on the parsed int raises,
landing in the error handler). -/
theorem no_brace_strict_parse_counterexample :
    ("42".data.contains '{') = false ∧
    json_loads "42" = some (PyVal.int 42) ∧
    parse_judgment "42" = PyVal.int 42 ∧
    parse_judgment "42" ≠ defaultJudgment "42" ∧
    judge (Except.ok "42") "p" "r" JudgeType.quality Option.none 70
      = PyVal.dict [("error", PyVal.str "'int' object has no attribute 'get'"),
                    ("passed", PyVal.bool false), ("score", PyVal.int 0)] ∧
    getField (judge (Except.ok "42") "p" "r" JudgeType.quality Option.none 70) "feedback"
      = Option.none :=
  ⟨rfl, rfl, rfl, fun h => PyVal.noConfusion h, rfl, rfl⟩

/-- Claim C3 (amended): for every raw text on which both the strict parse and
the brace-substring extraction fail, parsing returns the default structure —
score 0, passed false, the fixed non-empty failure-feedback message, and the
original raw text — and the verdict `judge` builds from it has score 0 and
passed false. -/
theorem parse_failure_default_verdict (raw op resp : String) (c : Option String)
    (jt : JudgeType) (ps : Int)
    (hstrict : json_loads raw = Option.none)
    (hextract : extract_attempt raw = Option.none)
    (hprompt : (get_judge_prompt op resp jt c).isOk = true) :
    parse_judgment raw = defaultJudgment raw ∧
    getField (parse_judgment raw) "score" = some (PyVal.int 0) ∧
    getField (parse_judgment raw) "passed" = some (PyVal.bool false) ∧
    getField (parse_judgment raw) "feedback"
      = some (PyVal.str "Failed to parse judge response") ∧
    "Failed to parse judge response" ≠ "" ∧
    getField (parse_judgment raw) "raw_text" = some (PyVal.str raw) ∧
    getField (judge (Except.ok raw) op resp jt c ps) "score" = some (PyVal.int 0) ∧
    getField (judge (Except.ok raw) op resp jt c ps) "passed" = some (PyVal.bool false) := by
  have hpj : parse_judgment raw = defaultJudgment raw := by
    simp [parse_judgment, hstrict, extract_json_from_text, hextract]
  have hj : judge (Except.ok raw) op resp jt c ps
      = reconcile (defaultJudgment raw) raw jt ps := by
    cases hgp : get_judge_prompt op resp jt c with
    | error e => rw [hgp] at hprompt; exact Bool.noConfusion hprompt
    | ok p => rw [judge, hgp, hpj]
  refine ⟨hpj, by rw [hpj]; rfl, by rw [hpj]; rfl, by rw [hpj]; rfl, by simp,
    by rw [hpj]; rfl, ?_, ?_⟩
  · rw [hj]
    simp only [reconcile, defaultJudgment, dictGet, lookupLast, scoreGE, toNum, pyAnd]
    rfl
  · rw [hj]
    simp only [reconcile, defaultJudgment, dictGet, lookupLast, scoreGE, toNum, pyAnd]
    rfl

/-- Claim C3 witness: a concrete brace-free text that is not valid JSON, on
which both stages fail and the default verdict is produced. -/
theorem parse_failure_default_verdict_witness :
    parse_judgment "hello there" = defaultJudgment "hello there" ∧
    getField (judge (Except.ok "hello there") "p" "r" JudgeType.quality Option.none 70)
      "score" = some (PyVal.int 0) ∧
    getField (judge (Except.ok "hello there") "p" "r" JudgeType.quality Option.none 70)
      "passed" = some (PyVal.bool false) := by
  have h := parse_failure_default_verdict "hello there" "p" "r" Option.none
    JudgeType.quality 70 (by rfl) (by rfl) (by rfl)
  exact ⟨h.1, h.2.2.2.2.2.2.1, h.2.2.2.2.2.2.2⟩

/-- Claim C4: whenever the injected judge-model call fails with description
`e` (and the prompt itself was constructible, so that the call is actually
reached), `judge` returns the structured error verdict — error field `e`,
passed false, score 0 — instead of letting the fault propagate; `judge` is
total, every path returning a dict. -/
theorem judge_catches_external_failure (e op resp : String) (jt : JudgeType)
    (c : Option String) (ps : Int)
    (hprompt : (get_judge_prompt op resp jt c).isOk = true) :
    judge (Except.error e) op resp jt c ps
      = PyVal.dict [("error", PyVal.str e), ("passed", PyVal.bool false),
                    ("score", PyVal.int 0)] := by
  cases hgp : get_judge_prompt op resp jt c with
  | error e' => rw [hgp] at hprompt; exact Bool.noConfusion hprompt
  | ok p => rw [judge, hgp]; rfl

/-- Claim C4 witness: a concrete failed call. -/
theorem judge_catches_external_failure_witness :
    judge (Except.error "network unreachable") "p" "r" JudgeType.quality Option.none 70
      = PyVal.dict [("error", PyVal.str "network unreachable"),
                    ("passed", PyVal.bool false), ("score", PyVal.int 0)] :=
  judge_catches_external_failure "network unreachable" "p" "r" JudgeType.quality
    Option.none 70 (by rfl)

/-- Claim C5 counterexample: calling `judge` with judge type CUSTOM and no
criteria does not raise to the caller — the ValueError raised inside
`_get_judge_prompt` is swallowed by the blanket except of `judge`, which
returns this structured result dict instead. -/
theorem judge_custom_no_criteria_counterexample :
    judge (Except.ok "\x7b\"score\": 95, \"passed\": true\x7d") "p" "r"
      JudgeType.custom Option.none 70
      = PyVal.dict [("error", PyVal.str "Custom judge type requires criteria to be provided"),
                    ("passed", PyVal.bool false), ("score", PyVal.int 0)] := rfl

/-- Claim C5 (amended): `_get_judge_prompt` raises the configuration
ValueError when CUSTOM is requested without criteria, but `judge` catches it
like any other exception and returns a structured error verdict (error field
carrying the configuration message, passed false, score 0) to the caller,
for every model outcome and passing score. -/
theorem judge_custom_no_criteria_returns_structured :
    (∀ (op resp : String),
      get_judge_prompt op resp JudgeType.custom Option.none
        = Except.error "Custom judge type requires criteria to be provided") ∧
    (∀ (m : Except String String) (op resp : String) (ps : Int),
      judge m op resp JudgeType.custom Option.none ps
        = PyVal.dict [("error", PyVal.str "Custom judge type requires criteria to be provided"),
                      ("passed", PyVal.bool false), ("score", PyVal.int 0)]) :=
  ⟨fun _ _ => rfl, fun _ _ _ _ => rfl⟩

/-- Claim C1: for every parsed judgment map whose score is numeric and whose
own `passed` entry, when present, is a boolean, the final `passed` returned
by `judge` is the AND of the judge's own opinion (defaulting to the
threshold check when absent) with the threshold check `score >= passing_score`. -/
theorem judge_reconciles_passed (raw op resp : String) (kvs : List (String × PyVal))
    (jt : JudgeType) (c : Option String) (ps : Int) (q : ℚ) (po : Option Bool)
    (hprompt : (get_judge_prompt op resp jt c).isOk = true)
    (hparse : json_loads raw = some (PyVal.dict kvs))
    (hscore : toNum ((lookupLast kvs "score").getD (PyVal.int 0)) = some q)
    (hpassed : lookupLast kvs "passed" = po.map PyVal.bool) :
    getField (judge (Except.ok raw) op resp jt c ps) "passed"
      = some (PyVal.bool (po.getD (decide ((ps : ℚ) ≤ q)) && decide ((ps : ℚ) ≤ q))) := by
  cases hgp : get_judge_prompt op resp jt c with
  | error e => rw [hgp] at hprompt; exact Bool.noConfusion hprompt
  | ok p =>
    have hjudge : judge (Except.ok raw) op resp jt c ps
        = reconcile (PyVal.dict kvs) raw jt ps := by
      rw [judge, hgp]
      simp [parse_judgment, hparse]
    rw [hjudge, reconcile]
    simp only [dictGet, scoreGE, hscore, hpassed]
    rw [getField_result_passed]
    cases po with
    | none => cases hd : decide ((ps : ℚ) ≤ q) <;> simp [pyAnd, pyTruthy, hd]
    | some b => cases b <;> cases hd : decide ((ps : ℚ) ≤ q) <;> simp [pyAnd, pyTruthy, hd]

/-- Claim C1 witness: the three concrete reconciliations from the spec, each
an application of the reconciliation theorem. -/
theorem judge_reconciles_passed_witness :
    getField (judge (Except.ok "\x7b\"score\": 85, \"passed\": true\x7d") "p" "r"
      JudgeType.quality Option.none 70) "passed" = some (PyVal.bool true) ∧
    getField (judge (Except.ok "\x7b\"score\": 85, \"passed\": false\x7d") "p" "r"
      JudgeType.quality Option.none 70) "passed" = some (PyVal.bool false) ∧
    getField (judge (Except.ok "\x7b\"score\": 50\x7d") "p" "r"
      JudgeType.quality Option.none 70) "passed" = some (PyVal.bool false) := by
  refine ⟨?_, ?_, ?_⟩
  · have h := judge_reconciles_passed "\x7b\"score\": 85, \"passed\": true\x7d" "p" "r"
      [("score", PyVal.int 85), ("passed", PyVal.bool true)] JudgeType.quality Option.none
      70 85 (some true) (by rfl) (by rfl) (by decide) (by rfl)
    rw [h]; rfl
  · have h := judge_reconciles_passed "\x7b\"score\": 85, \"passed\": false\x7d" "p" "r"
      [("score", PyVal.int 85), ("passed", PyVal.bool false)] JudgeType.quality Option.none
      70 85 (some false) (by rfl) (by rfl) (by decide) (by rfl)
    rw [h]; rfl
  · have h := judge_reconciles_passed "\x7b\"score\": 50\x7d" "p" "r"
      [("score", PyVal.int 50)] JudgeType.quality Option.none
      70 50 Option.none (by rfl) (by rfl) (by decide) (by rfl)
    rw [h]; rfl

/-- Claim C8: when the parsed judgment map has no `score` key the score used
for reconciliation and returned is 0; when the `score` value is non-numeric
the eagerly evaluated threshold comparison raises TypeError and the verdict
from the handler likewise carries score 0 (and passed false). -/
theorem judge_score_defaults (raw op resp : String) (kvs : List (String × PyVal))
    (jt : JudgeType) (c : Option String) (ps : Int)
    (hprompt : (get_judge_prompt op resp jt c).isOk = true)
    (hparse : json_loads raw = some (PyVal.dict kvs)) :
    (lookupLast kvs "score" = Option.none →
      getField (judge (Except.ok raw) op resp jt c ps) "score" = some (PyVal.int 0) ∧
      getField (judge (Except.ok raw) op resp jt c ps) "passed"
        = some (pyAnd ((lookupLast kvs "passed").getD (PyVal.bool (decide ((ps : ℚ) ≤ 0))))
            (PyVal.bool (decide ((ps : ℚ) ≤ 0))))) ∧
    (∀ v, lookupLast kvs "score" = some v → toNum v = Option.none →
      judge (Except.ok raw) op resp jt c ps
        = PyVal.dict [("error", PyVal.str
            ("'>=' not supported between instances of '" ++ v.typeName ++ "' and 'int'")),
            ("passed", PyVal.bool false), ("score", PyVal.int 0)]) := by
  have hjudge : judge (Except.ok raw) op resp jt c ps
      = reconcile (PyVal.dict kvs) raw jt ps := by
    cases hgp : get_judge_prompt op resp jt c with
    | error e => rw [hgp] at hprompt; exact Bool.noConfusion hprompt
    | ok p =>
      rw [judge, hgp]
      simp [parse_judgment, hparse]
  constructor
  · intro hnone
    rw [hjudge, reconcile]
    simp only [dictGet, hnone, Option.getD_none, scoreGE, toNum]
    rw [getField_result_score, getField_result_passed]
    norm_num
  · intro v hv hnum
    rw [hjudge, reconcile]
    simp only [dictGet, hv, Option.getD_some, scoreGE, hnum]
    rfl

/-- Claim C8 witness: a judgment with no `score` key yields score 0 and (with
threshold 70) passed false; a judgment whose score is the string `high`
yields the TypeError verdict with score 0. -/
theorem judge_score_defaults_witness :
    getField (judge (Except.ok "\x7b\"passed\": true\x7d") "p" "r"
      JudgeType.quality Option.none 70) "score" = some (PyVal.int 0) ∧
    getField (judge (Except.ok "\x7b\"passed\": true\x7d") "p" "r"
      JudgeType.quality Option.none 70) "passed" = some (PyVal.bool false) ∧
    judge (Except.ok "\x7b\"score\": \"high\"\x7d") "p" "r"
      JudgeType.quality Option.none 70
      = PyVal.dict [("error",
          PyVal.str "'>=' not supported between instances of 'str' and 'int'"),
          ("passed", PyVal.bool false), ("score", PyVal.int 0)] := by
  have h1 := (judge_score_defaults "\x7b\"passed\": true\x7d" "p" "r"
    [("passed", PyVal.bool true)] JudgeType.quality Option.none 70
    (by rfl) (by rfl)).1 (by rfl)
  have h2 := (judge_score_defaults "\x7b\"score\": \"high\"\x7d" "p" "r"
    [("score", PyVal.str "high")] JudgeType.quality Option.none 70
    (by rfl) (by rfl)).2 (PyVal.str "high") (by rfl) (by rfl)
  exact ⟨h1.1, by rw [h1.2]; rfl, h2⟩

/-- Claim C6 counterexample: on a prose-wrapped comparison response whose
brace substring is valid JSON, the strict-then-fallback strategy (the one
single judgments use) would recover winner 1, but `compare_responses` as
implemented returns winner None with a parse-error field — so it does not
share that strategy. -/
theorem compare_no_fallback_counterexample :
    getField (compare_responses
      (Except.ok "Here is my answer: \x7b\"winner\": 1\x7d Thanks!")
      "p" "a" "b" Option.none) "winner" = some PyVal.null ∧
    getField (compare_responses
      (Except.ok "Here is my answer: \x7b\"winner\": 1\x7d Thanks!")
      "p" "a" "b" Option.none) "error" = some (PyVal.str jsonDecodeErrorMsg) ∧
    extract_json_from_text "Here is my answer: \x7b\"winner\": 1\x7d Thanks!"
      = PyVal.dict [("winner", PyVal.int 1)] ∧
    getField (compare_responses_claimed
      (Except.ok "Here is my answer: \x7b\"winner\": 1\x7d Thanks!")
      "p" "a" "b" Option.none) "winner" = some (PyVal.int 1) ∧
    compare_responses (Except.ok "Here is my answer: \x7b\"winner\": 1\x7d Thanks!")
        "p" "a" "b" Option.none
      ≠ compare_responses_claimed
        (Except.ok "Here is my answer: \x7b\"winner\": 1\x7d Thanks!")
        "p" "a" "b" Option.none := by
  refine ⟨rfl, rfl, rfl, rfl, fun h => ?_⟩
  have h2 : (some PyVal.null : Option PyVal) = some (PyVal.int 1) := by
    calc (some PyVal.null : Option PyVal)
        = getField (compare_responses
            (Except.ok "Here is my answer: \x7b\"winner\": 1\x7d Thanks!")
            "p" "a" "b" Option.none) "winner" := rfl
      _ = getField (compare_responses_claimed
            (Except.ok "Here is my answer: \x7b\"winner\": 1\x7d Thanks!")
            "p" "a" "b" Option.none) "winner" := by rw [h]
      _ = some (PyVal.int 1) := rfl
  injection h2 with h3
  exact PyVal.noConfusion h3

/-- Claim C6 (amended): `compare_responses` parses the judge output with a
strict JSON parse only — no brace-substring fallback — and on strict parse
failure returns the undetermined-winner error dict. -/
theorem compare_strict_parse_only (raw op r1 r2 : String) (c : Option String)
    (h : json_loads raw = Option.none) :
    compare_responses (Except.ok raw) op r1 r2 c
      = PyVal.dict [("error", PyVal.str jsonDecodeErrorMsg), ("winner", PyVal.null)] := by
  rw [compare_responses, h]

/-- Claim C6 witness: the strict parse fails on the prose-wrapped response
(whose substring extraction would have succeeded), and the error dict comes
back. -/
theorem compare_strict_parse_only_witness :
    compare_responses (Except.ok "Here is my answer: \x7b\"winner\": 1\x7d Thanks!")
        "p" "a" "b" Option.none
      = PyVal.dict [("error", PyVal.str jsonDecodeErrorMsg), ("winner", PyVal.null)] :=
  compare_strict_parse_only "Here is my answer: \x7b\"winner\": 1\x7d Thanks!"
    "p" "a" "b" Option.none (by rfl)

/-- Claim C7: every failure inside `compare_responses` — a failed external
call, judge output that is not valid JSON, or valid JSON that is not an
object (so `.get` raises) — produces the dict with winner None and a
populated error field; `compare_responses` is total, never propagating a
fault. -/
theorem compare_failures_return_undetermined :
    (∀ (e op r1 r2 : String) (c : Option String),
      compare_responses (Except.error e) op r1 r2 c
        = PyVal.dict [("error", PyVal.str e), ("winner", PyVal.null)]) ∧
    (∀ (raw op r1 r2 : String) (c : Option String), json_loads raw = Option.none →
      compare_responses (Except.ok raw) op r1 r2 c
        = PyVal.dict [("error", PyVal.str jsonDecodeErrorMsg), ("winner", PyVal.null)]) ∧
    (∀ (raw op r1 r2 : String) (c : Option String) (v : PyVal),
      json_loads raw = some v → (∀ kvs, v ≠ PyVal.dict kvs) →
      compare_responses (Except.ok raw) op r1 r2 c
        = PyVal.dict [("error",
            PyVal.str ("'" ++ v.typeName ++ "' object has no attribute 'get'")),
            ("winner", PyVal.null)]) := by
  refine ⟨fun e op r1 r2 c => rfl, fun raw op r1 r2 c h => by rw [compare_responses, h],
    fun raw op r1 r2 c v h hnd => ?_⟩
  rw [compare_responses, h]
  cases v with
  | dict kvs => exact absurd rfl (hnd kvs)
  | null => rfl
  | bool b => rfl
  | int n => rfl
  | float q => rfl
  | str s => rfl
  | list xs => rfl

/-- Claim C7 witness: a failed call, a non-JSON response, and a JSON-array
response each produce the undetermined-winner error dict. -/
theorem compare_failures_return_undetermined_witness :
    compare_responses (Except.error "boom") "p" "a" "b" Option.none
      = PyVal.dict [("error", PyVal.str "boom"), ("winner", PyVal.null)] ∧
    compare_responses (Except.ok "not json") "p" "a" "b" Option.none
      = PyVal.dict [("error", PyVal.str jsonDecodeErrorMsg), ("winner", PyVal.null)] ∧
    compare_responses (Except.ok "[1, 2]") "p" "a" "b" Option.none
      = PyVal.dict [("error", PyVal.str "'list' object has no attribute 'get'"),
                    ("winner", PyVal.null)] := by
  refine ⟨compare_failures_return_undetermined.1 "boom" "p" "a" "b" Option.none,
    compare_failures_return_undetermined.2.1 "not json" "p" "a" "b" Option.none (by rfl), ?_⟩
  have h := compare_failures_return_undetermined.2.2 "[1, 2]" "p" "a" "b" Option.none
    (PyVal.list [PyVal.int 1, PyVal.int 2]) (by rfl) (fun kvs hk => PyVal.noConfusion hk)
  exact h

/-- The `for`-loop of `judge_multiple` appends exactly one independent
`judge` result per response. -/
theorem judge_multiple_loop_eq (model : String → Except String String) (op : String)
    (jt : JudgeType) (c : Option String) (ps : Int) :
    ∀ (rs : List String) (acc : List PyVal),
      judge_multiple_loop model op jt c ps rs acc
        = acc ++ rs.map (fun r => judge (model r) op r jt c ps) := by
  intro rs
  induction rs with
  | nil => intro acc; simp [judge_multiple_loop]
  | cons r rest ih => intro acc; rw [judge_multiple_loop, ih]; simp

/-- Claim C9: `judge_multiple` returns exactly one verdict per response, in
input order, each equal to the single-text `judge` applied to that response
alone — the sequential loop shares no state between items. -/
theorem judge_multiple_pointwise (model : String → Except String String)
    (op : String) (responses : List String) (jt : JudgeType) (c : Option String)
    (ps : Int) :
    judge_multiple model op responses jt c ps
      = responses.map (fun r => judge (model r) op r jt c ps) ∧
    (judge_multiple model op responses jt c ps).length = responses.length ∧
    ∀ i : Nat, (judge_multiple model op responses jt c ps)[i]?
      = (responses[i]?).map (fun r => judge (model r) op r jt c ps) := by
  have h : judge_multiple model op responses jt c ps
      = responses.map (fun r => judge (model r) op r jt c ps) := by
    rw [judge_multiple, judge_multiple_loop_eq]
    simp
  exact ⟨h, by rw [h]; simp, fun i => by rw [h]; simp⟩

/-- Every `reconcile` outcome — normal or via the exception handler — is a
dict carrying `passed` and `score`, and a truthy `passed` forces a numeric
score at or above the threshold. -/
theorem reconcile_verdict_fields (judgment : PyVal) (raw : String) (jt : JudgeType)
    (ps : Int) :
    ∃ pv sv, getField (reconcile judgment raw jt ps) "passed" = some pv ∧
      getField (reconcile judgment raw jt ps) "score" = some sv ∧
      (pyTruthy pv = true → ∃ q, toNum sv = some q ∧ (ps : ℚ) ≤ q) := by
  cases judgment with
  | dict kvs =>
    rw [reconcile]
    simp only [dictGet]
    cases hn : toNum ((lookupLast kvs "score").getD (PyVal.int 0)) with
    | none =>
      simp only [scoreGE, hn]
      exact ⟨PyVal.bool false, PyVal.int 0, rfl, rfl, fun h => nomatch h⟩
    | some q =>
      simp only [scoreGE, hn]
      rw [getField_result_passed, getField_result_score]
      refine ⟨_, _, rfl, rfl, ?_⟩
      intro ht
      by_cases hb : pyTruthy ((lookupLast kvs "passed").getD
          (PyVal.bool (decide ((ps : ℚ) ≤ q)))) = true
      · rw [pyAnd, if_pos hb] at ht
        refine ⟨q, hn, ?_⟩
        simpa [pyTruthy] using ht
      · rw [pyAnd, if_neg hb] at ht
        exact absurd ht hb
  | null => exact ⟨PyVal.bool false, PyVal.int 0, rfl, rfl, fun h => nomatch h⟩
  | bool b => exact ⟨PyVal.bool false, PyVal.int 0, rfl, rfl, fun h => nomatch h⟩
  | int n => exact ⟨PyVal.bool false, PyVal.int 0, rfl, rfl, fun h => nomatch h⟩
  | float q => exact ⟨PyVal.bool false, PyVal.int 0, rfl, rfl, fun h => nomatch h⟩
  | str s => exact ⟨PyVal.bool false, PyVal.int 0, rfl, rfl, fun h => nomatch h⟩
  | list xs => exact ⟨PyVal.bool false, PyVal.int 0, rfl, rfl, fun h => nomatch h⟩

/-- Claim C10: on every execution path — configuration error, failed call,
strict parse, fallback parse, parse failure, or in-handler exception — the
dict `judge` returns has both a `passed` and a `score` key, and a truthy
`passed` implies the score is a number at or above the caller's passing
score. -/
theorem judge_verdict_invariant (m : Except String String) (op resp : String)
    (jt : JudgeType) (c : Option String) (ps : Int) :
    ∃ pv sv, getField (judge m op resp jt c ps) "passed" = some pv ∧
      getField (judge m op resp jt c ps) "score" = some sv ∧
      (pyTruthy pv = true → ∃ q, toNum sv = some q ∧ (ps : ℚ) ≤ q) := by
  cases hgp : get_judge_prompt op resp jt c with
  | error e =>
    have hj : judge m op resp jt c ps = errorVerdict e := by
      cases m <;> rw [judge, hgp]
    rw [hj]
    exact ⟨PyVal.bool false, PyVal.int 0, rfl, rfl, fun h => nomatch h⟩
  | ok p =>
    cases m with
    | error e =>
      have hj : judge (Except.error e) op resp jt c ps = errorVerdict e := by
        rw [judge, hgp]
      rw [hj]
      exact ⟨PyVal.bool false, PyVal.int 0, rfl, rfl, fun h => nomatch h⟩
    | ok raw =>
      have hj : judge (Except.ok raw) op resp jt c ps
          = reconcile (parse_judgment raw) raw jt ps := by
        rw [judge, hgp]
      rw [hj]
      exact reconcile_verdict_fields (parse_judgment raw) raw jt ps

/-- Claim C10 witness: the invariant instantiated at a concrete passing
verdict. -/
theorem judge_verdict_invariant_witness :
    ∃ pv sv, getField (judge (Except.ok "\x7b\"score\": 85, \"passed\": true\x7d")
        "p" "r" JudgeType.quality Option.none 70) "passed" = some pv ∧
      getField (judge (Except.ok "\x7b\"score\": 85, \"passed\": true\x7d")
        "p" "r" JudgeType.quality Option.none 70) "score" = some sv ∧
      (pyTruthy pv = true → ∃ q, toNum sv = some q ∧ ((70 : Int) : ℚ) ≤ q) :=
  judge_verdict_invariant (Except.ok "\x7b\"score\": 85, \"passed\": true\x7d")
    "p" "r" JudgeType.quality Option.none 70

end LLMJudge
